import Mathlib

/-!
Session repository (`internal/repo/sign.go`).

A shallow embedding of `SignRepo` and of the part of the object-relational
mapper and of the relational engine that its methods drive, followed by
theorems about the methods.

The storage is explicit state: the rows of table `sign` in storage order, a
script that says which of the coming statements the engine fails to execute,
and the log of the statements that reached the engine.
-/

set_option autoImplicit false

namespace SignRepo

/-! ## Constants of `sign.go` -/

def SignTableName : String := "sign"
def Issuer : String := "issuer"
def IP : String := "ip"
def UserAgent : String := "user_agent"
def UserId : String := "user_id"
def LoginId : String := "id"
def DeviceName : String := "device_name"
def CreatedAt : String := "created_at"

/-! ## Data model -/

/-- A column value or a bound query argument. A timestamp is the number of
nanoseconds from the zero `time.Time` to an instant. -/
inductive Value where
  | int (i : Int)
  | str (s : String)
  | time (t : Int)
  deriving DecidableEq, Repr

/-- Modelled from the spec: `model.Sign` is not among the sources; its columns
are those of the table schema (`id`, `issuer`, `user_id`, `ip`, `user_agent`,
`device_name`, `online_time`, `created_at`). -/
structure Sign where
  Id : Int
  Issuer : String
  UserId : String
  Ip : String
  UserAgent : String
  DeviceName : String
  OnlineTime : Int
  CreatedAt : Int
  deriving DecidableEq, Repr

/-- The Go zero value of `model.Sign`. -/
def Sign.zero : Sign :=
  { Id := 0, Issuer := "", UserId := "", Ip := "", UserAgent := "", DeviceName := "",
    OnlineTime := 0, CreatedAt := 0 }

/-- Value of a column of a row, `none` for a name that is not a column. -/
def Sign.column (r : Sign) (col : String) : Option Value :=
  if col = "id" then some (.int r.Id)
  else if col = "issuer" then some (.str r.Issuer)
  else if col = "user_id" then some (.str r.UserId)
  else if col = "ip" then some (.str r.Ip)
  else if col = "user_agent" then some (.str r.UserAgent)
  else if col = "device_name" then some (.str r.DeviceName)
  else if col = "online_time" then some (.time r.OnlineTime)
  else if col = "created_at" then some (.time r.CreatedAt)
  else none

/-- Row with one column overwritten: the effect of `SET col = v` on a row. A
name that is not a column, or a value of another type, leaves `none`. -/
def Sign.setColumn (r : Sign) (col : String) (v : Value) : Option Sign :=
  match v with
  | .int i => if col = "id" then some { r with Id := i } else none
  | .str s =>
    if col = "issuer" then some { r with Issuer := s }
    else if col = "user_id" then some { r with UserId := s }
    else if col = "ip" then some { r with Ip := s }
    else if col = "user_agent" then some { r with UserAgent := s }
    else if col = "device_name" then some { r with DeviceName := s }
    else none
  | .time t =>
    if col = "online_time" then some { r with OnlineTime := t }
    else if col = "created_at" then some { r with CreatedAt := t }
    else none

/-- Errors a method can hand to its caller: the mapper's own
(`gorm.ErrRecordNotFound`, `gorm.ErrMissingWhereClause`) and the engine's. -/
inductive Error where
  | ErrRecordNotFound
  | ErrMissingWhereClause
  | Connection
  | Syntax
  | UnknownColumn
  | UnknownTable
  | Arguments
  | Constraint
  deriving DecidableEq, Repr

/-! ## `fmt.Sprintf` for the `%s` verb -/

/-- Expansion of a format over characters: each `%s` takes the next argument,
`%!s(MISSING)` when none is left. -/
def sprintfChars : List Char → List String → List Char
  | '%' :: 's' :: rest, a :: args => a.toList ++ sprintfChars rest args
  | '%' :: 's' :: rest, [] => "%!s(MISSING)".toList ++ sprintfChars rest []
  | c :: rest, args => c :: sprintfChars rest args
  | [], _ => []

def Sprintf (format : String) (args : List String) : String :=
  String.mk (sprintfChars format.toList args)

/-! ## The engine's reading of a `WHERE` fragment

The fragments the repository sends are comparisons of a column with a
placeholder. The grammar below is the part of SQL they live in:
`cond ::= atom (AND atom)*`, `atom ::= column ('=' | '>') '?'`. A comma is a
token of SQL but it is no connective of a condition. -/

inductive CmpOp where
  | eq
  | gt
  deriving DecidableEq, Repr

inductive Token where
  | ident (s : String)
  | op (o : CmpOp)
  | qmark
  | comma
  deriving DecidableEq, Repr

def isIdentChar (c : Char) : Bool :=
  c.isAlphanum || c = '_'

/-- Close the identifier being read (`acc` holds its characters, last first). -/
def flushIdent (acc : List Char) : List Token :=
  if acc = [] then [] else [Token.ident (String.mk acc.reverse)]

/-- Tokens of a fragment, `none` at a character SQL has no token for here. -/
def lexChars : List Char → List Char → Option (List Token)
  | [], acc => some (flushIdent acc)
  | c :: rest, acc =>
    if isIdentChar c then lexChars rest (c :: acc)
    else if c = ' ' then (lexChars rest []).map (flushIdent acc ++ ·)
    else if c = '=' then (lexChars rest []).map (flushIdent acc ++ Token.op .eq :: ·)
    else if c = '>' then (lexChars rest []).map (flushIdent acc ++ Token.op .gt :: ·)
    else if c = '?' then (lexChars rest []).map (flushIdent acc ++ Token.qmark :: ·)
    else if c = ',' then (lexChars rest []).map (flushIdent acc ++ Token.comma :: ·)
    else none

/-- Keywords are read without regard to case. -/
def isAnd (s : String) : Bool :=
  s.toList.map Char.toLower = ['a', 'n', 'd']

/-- Parse `atom (AND atom)*`. -/
def parseAtoms : List Token → Option (List (String × CmpOp))
  | [Token.ident c, Token.op o, Token.qmark] => some [(c, o)]
  | Token.ident c :: Token.op o :: Token.qmark :: Token.ident k :: rest =>
    if isAnd k then (parseAtoms rest).map ((c, o) :: ·) else none
  | _ => none

/-- A fragment as the engine reads it: the comparisons it conjoins, or a syntax
error. -/
def parseWhere (sql : String) : Except Error (List (String × CmpOp)) :=
  match (lexChars sql.toList []).bind parseAtoms with
  | some atoms => .ok atoms
  | none => .error .Syntax

/-! ## Statements of the mapper -/

/-- One `Where` of a chain: a fragment with its arguments (`clause.Expr`), or
the equalities a struct condition expands to. -/
inductive Expr where
  | raw (sql : String) (vars : List Value)
  | eqs (conds : List (String × Value))
  deriving DecidableEq, Repr

/-- A comparison with its argument bound. -/
structure Cmp where
  col : String
  op : CmpOp
  arg : Value
  deriving DecidableEq, Repr

/-- The chain built before a finisher runs. `Limit = none` is a chain without
`Limit`. -/
structure Statement where
  Table : String
  Selects : List String
  Wheres : List Expr
  Offset : Int
  Limit : Option Int
  deriving DecidableEq, Repr

/-- The chain `db.Table(name)`. -/
def Table (name : String) : Statement :=
  { Table := name, Selects := [], Wheres := [], Offset := 0, Limit := none }

/-- Modelled from the spec: `db.Model(&model.Sign{})`, and a chain whose table
comes from a destination of type `model.Sign`; the table of `model.Sign` is the
one table of the repository, `sign` (the declaration of `model.Sign` is not
among the sources). -/
def Model : Statement :=
  Table SignTableName

def Statement.Select (s : Statement) (col : String) : Statement :=
  { s with Selects := s.Selects ++ [col] }

/-- The call `Where(fragment, args...)`: successive `Where`s are joined with AND. -/
def Statement.Where (s : Statement) (sql : String) (vars : List Value) : Statement :=
  { s with Wheres := s.Wheres ++ [Expr.raw sql vars] }

/-- The fields of a struct condition that take part: those that are not the
zero value of their type. -/
def structConds (v : Sign) : List (String × Value) :=
  (if v.Id = 0 then [] else [("id", Value.int v.Id)]) ++
  (if v.Issuer = "" then [] else [("issuer", Value.str v.Issuer)]) ++
  (if v.UserId = "" then [] else [("user_id", Value.str v.UserId)]) ++
  (if v.Ip = "" then [] else [("ip", Value.str v.Ip)]) ++
  (if v.UserAgent = "" then [] else [("user_agent", Value.str v.UserAgent)]) ++
  (if v.DeviceName = "" then [] else [("device_name", Value.str v.DeviceName)]) ++
  (if v.OnlineTime = 0 then [] else [("online_time", Value.time v.OnlineTime)]) ++
  (if v.CreatedAt = 0 then [] else [("created_at", Value.time v.CreatedAt)])

/-- The call `Where(&model.Sign{...})`: one equality per non-zero field; a struct with
no such field adds no condition at all. -/
def Statement.WhereStruct (s : Statement) (v : Sign) : Statement :=
  if structConds v = [] then s else { s with Wheres := s.Wheres ++ [Expr.eqs (structConds v)] }

def Statement.withOffset (s : Statement) (offset : Int) : Statement :=
  { s with Offset := offset }

def Statement.withLimit (s : Statement) (limit : Int) : Statement :=
  { s with Limit := some limit }

/-! ## The engine -/

/-- Placeholders take the arguments from left to right; their numbers must
agree. -/
def bindAtoms : List (String × CmpOp) → List Value → Except Error (List Cmp)
  | [], [] => .ok []
  | (c, o) :: atoms, v :: vars =>
    match bindAtoms atoms vars with
    | .ok cs => .ok ({ col := c, op := o, arg := v } :: cs)
    | .error e => .error e
  | _, _ => .error .Arguments

def compileExpr : Expr → Except Error (List Cmp)
  | .raw sql vars =>
    match parseWhere sql with
    | .ok atoms => bindAtoms atoms vars
    | .error e => .error e
  | .eqs conds => .ok (conds.map fun p => { col := p.1, op := CmpOp.eq, arg := p.2 })

def compileWheres : List Expr → Except Error (List Cmp)
  | [] => .ok []
  | e :: es =>
    match compileExpr e, compileWheres es with
    | .ok cs, .ok ds => .ok (cs ++ ds)
    | .error err, _ => .error err
    | _, .error err => .error err

def isColumn (col : String) : Bool :=
  (Sign.zero.column col).isSome

/-- What the engine makes of the table, the selected columns and the condition
of a statement: the comparisons to evaluate on each row, or its error. -/
def Statement.conds (s : Statement) : Except Error (List Cmp) :=
  if s.Table ≠ SignTableName then .error .UnknownTable
  else match compileWheres s.Wheres with
    | .error e => .error e
    | .ok cs =>
      if cs.all (fun c => isColumn c.col) && s.Selects.all isColumn then .ok cs
      else .error .UnknownColumn

def Value.gt : Value → Value → Bool
  | .int a, .int b => decide (b < a)
  | .time a, .time b => decide (b < a)
  | .str a, .str b => decide (b < a)
  | _, _ => false

def Cmp.holds (c : Cmp) (r : Sign) : Bool :=
  match r.column c.col with
  | none => false
  | some v =>
    match c.op with
    | .eq => decide (v = c.arg)
    | .gt => v.gt c.arg

/-- A row satisfies the condition when every comparison holds. -/
def selects (cs : List Cmp) (r : Sign) : Bool :=
  cs.all fun c => c.holds r

/-- The row as the destination sees it: with a `Select`, the columns that were
not selected keep their zero value. -/
def Sign.project (cols : List String) (r : Sign) : Sign :=
  if cols = [] then r
  else
    { Id := if "id" ∈ cols then r.Id else 0
      Issuer := if "issuer" ∈ cols then r.Issuer else ""
      UserId := if "user_id" ∈ cols then r.UserId else ""
      Ip := if "ip" ∈ cols then r.Ip else ""
      UserAgent := if "user_agent" ∈ cols then r.UserAgent else ""
      DeviceName := if "device_name" ∈ cols then r.DeviceName else ""
      OnlineTime := if "online_time" ∈ cols then r.OnlineTime else 0
      CreatedAt := if "created_at" ∈ cols then r.CreatedAt else 0 }

/-- The paging clauses as the mapper writes them: `OFFSET` only for a positive
offset, `LIMIT` only for a limit that is not negative. -/
def page (offset : Int) (limit : Option Int) (rows : List Sign) : List Sign :=
  let rest := if 0 < offset then rows.drop offset.toNat else rows
  match limit with
  | none => rest
  | some n => if 0 ≤ n then rest.take n.toNat else rest

inductive Op where
  | Create
  | Take
  | Find
  | Count
  | Update
  | Delete
  deriving DecidableEq, Repr

/-- The storage behind a `*gorm.DB`: the rows of table `sign` in storage
order, for each coming statement whether the connection fails under it
(nothing scripted: it does not), and the statements issued so far. -/
structure DB where
  rows : List Sign
  faults : List Bool
  log : List Op
  deriving DecidableEq, Repr

/-- Issue a statement: it is logged and takes the next entry of the script. -/
def DB.issue (db : DB) (op : Op) : Bool × DB :=
  match db.faults with
  | [] => (false, { db with log := db.log ++ [op] })
  | f :: fs => (f, { db with faults := fs, log := db.log ++ [op] })

/-- Run a `SELECT` statement of kind `op`. -/
def runSelect (op : Op) (s : Statement) (db : DB) : Except Error (List Sign) × DB :=
  let (fault, db1) := db.issue op
  if fault then (.error .Connection, db1)
  else match s.conds with
    | .error e => (.error e, db1)
    | .ok cs => (.ok ((page s.Offset s.Limit (db.rows.filter (selects cs))).map
        (Sign.project s.Selects)), db1)

/-- The finisher `Take(&dest)`: the first row under `LIMIT 1`, `ErrRecordNotFound` when the
result is empty. -/
def Statement.Take (s : Statement) (db : DB) : Except Error Sign × DB :=
  match runSelect .Take (s.withLimit 1) db with
  | (.error e, db1) => (.error e, db1)
  | (.ok [], db1) => (.error .ErrRecordNotFound, db1)
  | (.ok (r :: _), db1) => (.ok r, db1)

/-- The finisher `Find(&dest)`: the rows, in storage order; `dest` is left as it was (here:
empty) on an error. -/
def Statement.Find (s : Statement) (db : DB) : (List Sign × Option Error) × DB :=
  match runSelect .Find s db with
  | (.error e, db1) => (([], some e), db1)
  | (.ok rows, db1) => ((rows, none), db1)

/-- The finisher `Count(&n)`: `SELECT count(*)` under the condition; `n` is 0 when the
statement fails. -/
def Statement.Count (s : Statement) (db : DB) : (Int × Option Error) × DB :=
  let (fault, db1) := db.issue .Count
  if fault then ((0, some .Connection), db1)
  else match s.conds with
    | .error e => ((0, some e), db1)
    | .ok cs => (((db.rows.filter (selects cs)).length, none), db1)

/-- The finisher `Delete(&model.Sign{})`: refused by the mapper without a condition; else
the rows under the condition are removed. -/
def Statement.Delete (s : Statement) (db : DB) : Option Error × DB :=
  if s.Wheres = [] then (some .ErrMissingWhereClause, db)
  else
    let (fault, db1) := db.issue .Delete
    if fault then (some .Connection, db1)
    else match s.conds with
      | .error e => (some e, db1)
      | .ok cs => (none, { db1 with rows := db.rows.filter fun r => !selects cs r })

/-- Modelled from the spec: the constraints of table `sign` (`id` is the primary
key, `issuer` is unique); the schema is not among the sources. -/
def keysFree (rows : List Sign) (data : Sign) : Bool :=
  rows.all fun r => decide (r.Id ≠ data.Id) && decide (r.Issuer ≠ data.Issuer)

def keysUnique : List Sign → Bool
  | [] => true
  | r :: rows => keysFree rows r && keysUnique rows

/-- The finisher `UpdateColumn(col, v)`: `SET col = v` on the rows under the condition, no
hook and no other column. -/
def Statement.UpdateColumn (s : Statement) (col : String) (v : Value) (db : DB) :
    Option Error × DB :=
  if s.Wheres = [] then (some .ErrMissingWhereClause, db)
  else
    let (fault, db1) := db.issue .Update
    if fault then (some .Connection, db1)
    else match s.conds with
      | .error e => (some e, db1)
      | .ok cs =>
        if (Sign.zero.setColumn col v).isNone then (some .UnknownColumn, db1)
        else
          let rows := db.rows.map fun r => if selects cs r then (r.setColumn col v).getD r else r
          if (col = "id" ∨ col = "issuer") ∧ keysUnique rows = false then (some .Constraint, db1)
          else (none, { db1 with rows := rows })

/-- The finisher `Create(&data)`: the row is stored after the others unless a key of it is
taken. -/
def Statement.Create (s : Statement) (data : Sign) (db : DB) : Option Error × DB :=
  let (fault, db1) := db.issue .Create
  if fault then (some .Connection, db1)
  else if s.Table ≠ SignTableName then (some .UnknownTable, db1)
  else if keysFree db.rows data then (none, { db1 with rows := db.rows ++ [data] })
  else (some .Constraint, db1)

/-! ## Machine integers and time -/

/-- Value of a Go `int` (64 bits, two's complement) after an arithmetic
operation whose exact result is `x`. -/
def wrapInt (x : Int) : Int :=
  (x + 2 ^ 63) % 2 ^ 64 - 2 ^ 63

/-- The local time zone of the process, as far as `AddDate` reads it. Instants
and wall-clock readings are counted in seconds; a wall-clock reading is the
instant at which a UTC clock shows the same date and time of day. -/
structure Location where
  /-- Seconds east of UTC in force at an instant. -/
  offset : Int → Int
  /-- The instant `time.Date` gives to a wall-clock reading of the zone. -/
  resolve : Int → Int

/-- The zone that is always `c` seconds east of UTC. -/
def Location.fixed (c : Int) : Location :=
  { offset := fun _ => c, resolve := fun wall => wall - c }

def Location.UTC : Location :=
  Location.fixed 0

/-- A zone four hours west of UTC whose clocks are set back one hour at the
instant `change` (five hours west from then on). A reading that the clocks
show twice is given to its first showing. -/
def Location.fallBack (change : Int) : Location :=
  { offset := fun sec => if sec < change then -(4 * 3600) else -(5 * 3600)
    resolve := fun wall => if wall + 4 * 3600 < change then wall + 4 * 3600 else wall + 5 * 3600 }

/-- The time `t.AddDate(0, 0, days)` of a time `t` (in nanoseconds) in the zone
`loc`: the date of `t` in the zone with `days` added to the day, at the same
time of day, handed to `time.Date`, which normalises the day. The date and the
time of day enter through the wall-clock reading alone, which moves by
`days * 86400` seconds; the nanoseconds within the second are kept. This is
`days * 24h` later when the offset of the zone is the same at both ends, and
not otherwise. -/
def AddDate (loc : Location) (t : Int) (days : Int) : Int :=
  let sec := t / 1000000000
  let nsec := t % 1000000000
  let wall := sec + loc.offset sec
  loc.resolve (wall + days * 86400) * 1000000000 + nsec

/-! ## Requests and responses -/

/-- Modelled from the spec: `types.DevicesReq` is not among the sources; the
method reads `UserId`, `PageNumber` and `LineNumber`, the last two of type
`int` since they go to `Offset` and `Limit`. -/
structure DevicesReq where
  UserId : String
  PageNumber : Int
  LineNumber : Int
  deriving DecidableEq, Repr

/-- Modelled from the spec: `types.DevicesResp` is not among the sources; the
method fills `Total` (an `int64`) and `Devices`, the session records of the
page. -/
structure DevicesResp where
  Total : Int
  Devices : List Sign
  deriving DecidableEq, Repr

/-- Modelled from the spec: `types.ModifyDeviceNameReq` is not among the
sources; the method reads `LoginId` and `DeviceName`. -/
structure ModifyDeviceNameReq where
  LoginId : Int
  DeviceName : String
  deriving DecidableEq, Repr

/-! ## The methods of `SignRepo`

Each takes the storage `r` and returns what the Go method returns together
with the storage after it. `time.Now()` is the argument `now`, and the local
zone of the process, in which `time.Now()` is read, the argument `loc`. -/

def InsertSign (r : DB) (data : Sign) : Option Error × DB :=
  (Table SignTableName).Create data r

def CompareSign (r : DB) (issuer : String) : Option Error × DB :=
  match (Model.WhereStruct { Sign.zero with Issuer := issuer }).Take r with
  | (.error e, r1) => (some e, r1)
  | (.ok _, r1) => (none, r1)

def CheckLoginId (r : DB) (user_id ip user_agent : String) : (Int × Option Error) × DB :=
  match ((((Table SignTableName).Select LoginId).Where
      (Sprintf "%s=?,%s=?,%s=?" [UserId, IP, UserAgent])
      [.str user_id, .str ip, .str user_agent]).Take r) with
  | (.error err, r1) => ((0, some err), r1)
  | (.ok Temp, r1) => ((Temp.Id, none), r1)

def DeleteSignByIssuer (r : DB) (issuer : String) : Option Error × DB :=
  ((Table SignTableName).Where (Sprintf "%s=?" [Issuer]) [.str issuer]).Delete r

def DeleteSignByLoginId (r : DB) (login_id : Int) : Option Error × DB :=
  ((Table SignTableName).Where (Sprintf "%s=?" [LoginId]) [.int login_id]).Delete r

/-- The local `offset` of `ShowDevices`. -/
def ShowDevices.offset (req : DevicesReq) : Int :=
  wrapInt (wrapInt (req.PageNumber - 1) * req.LineNumber)

/-- The condition both statements of `ShowDevices` carry. -/
def ShowDevices.recent (loc : Location) (now : Int) (req : DevicesReq) : Statement :=
  (Model.Where (Sprintf "%s=?" [UserId]) [.str req.UserId]).Where
    (Sprintf "%s>?" [CreatedAt]) [.time (AddDate loc now (-30))]

/-- The method `ShowDevices`; its `fmt.Println` of the page and line number writes
to standard output only and is left out. -/
def ShowDevices (r : DB)
    (loc : Location) (now : Int) (req : DevicesReq) : (DevicesResp × Option Error) × DB :=
  let offset := ShowDevices.offset req
  let counted := (ShowDevices.recent loc now req).Count r
  let Total := counted.1.1
  if Total = 0 then (({ Total := Total, Devices := [] }, none), counted.2)
  else
    let found := (((ShowDevices.recent loc now req).withOffset offset).withLimit
      req.LineNumber).Find counted.2
    (({ Total := Total, Devices := found.1.1 }, found.1.2), found.2)

def ModifyDeviceName (r : DB) (req : ModifyDeviceNameReq) : Option Error × DB :=
  ((Table SignTableName).Where (Sprintf "%s=?" [LoginId]) [.int req.LoginId]).UpdateColumn
    DeviceName (.str req.DeviceName) r

/-- Storage holding `rows` whose connection does not fail and on which no
statement has been issued yet. -/
def DB.healthy (rows : List Sign) : DB :=
  { rows := rows, faults := [], log := [] }

def sampleRow : Sign :=
  { Id := 42, Issuer := "tok", UserId := "u1", Ip := "10.0.0.1", UserAgent := "curl",
    DeviceName := "laptop", OnlineTime := 1000, CreatedAt := 1000 }

/-- Three rows of user `u1`. -/
def sampleRows : List Sign :=
  [sampleRow,
   { sampleRow with Id := 43, Issuer := "tok43", Ip := "10.0.0.2" },
   { sampleRow with Id := 44, Issuer := "tok44", Ip := "10.0.0.3" }]

/-- Thirty-five rows of user `u1`, ids 1 to 35. -/
def rows35 : List Sign :=
  (List.range 35).map fun (i : Nat) =>
    { sampleRow with Id := (i : Int) + 1, Issuer := String.mk (List.replicate (i + 1) 't') }

/-- The rows `ShowDevices` is to report: those of the user, created later than
thirty days before `now`. -/
def isRecentOf (loc : Location) (now : Int) (user_id : String) (d : Sign) : Bool :=
  decide (d.UserId = user_id) && decide (AddDate loc now (-30) < d.CreatedAt)

/-! ## What the engine makes of the repository's statements -/

theorem conds_issuer (issuer : String) :
    ((Table SignTableName).Where (Sprintf "%s=?" [Issuer]) [.str issuer]).conds =
      .ok [{ col := "issuer", op := .eq, arg := .str issuer }] := rfl

theorem conds_loginId (login_id : Int) :
    ((Table SignTableName).Where (Sprintf "%s=?" [LoginId]) [.int login_id]).conds =
      .ok [{ col := "id", op := .eq, arg := .int login_id }] := rfl

theorem conds_recent (loc : Location) (now : Int) (req : DevicesReq) :
    (ShowDevices.recent loc now req).conds =
      .ok [{ col := "user_id", op := .eq, arg := .str req.UserId },
           { col := "created_at", op := .gt, arg := .time (AddDate loc now (-30)) }] := rfl

theorem conds_recent_page (loc : Location) (now : Int) (req : DevicesReq) (offset limit : Int) :
    (((ShowDevices.recent loc now req).withOffset offset).withLimit limit).conds =
      .ok [{ col := "user_id", op := .eq, arg := .str req.UserId },
           { col := "created_at", op := .gt, arg := .time (AddDate loc now (-30)) }] := rfl

theorem conds_checkLoginId (user_id ip user_agent : String) :
    ((((Table SignTableName).Select LoginId).Where
      (Sprintf "%s=?,%s=?,%s=?" [UserId, IP, UserAgent])
      [.str user_id, .str ip, .str user_agent]).withLimit 1).conds = .error .Syntax := rfl

theorem selects_issuer (issuer : String) (r : Sign) :
    selects [{ col := "issuer", op := .eq, arg := .str issuer }] r = decide (r.Issuer = issuer) := by
  simp [selects, Cmp.holds, Sign.column]

theorem selects_loginId (login_id : Int) (r : Sign) :
    selects [{ col := "id", op := .eq, arg := .int login_id }] r = decide (r.Id = login_id) := by
  simp [selects, Cmp.holds, Sign.column]

theorem selects_recent (loc : Location) (now : Int) (user_id : String) (r : Sign) :
    selects [{ col := "user_id", op := .eq, arg := .str user_id },
             { col := "created_at", op := .gt, arg := .time (AddDate loc now (-30)) }] r =
      isRecentOf loc now user_id r := by
  simp [selects, Cmp.holds, Sign.column, Value.gt, isRecentOf]

theorem project_nil (rows : List Sign) : rows.map (Sign.project []) = rows := by
  have h : Sign.project [] = id := by
    funext r
    simp [Sign.project]
  rw [h, List.map_id]

/-- A healthy run of a page statement of `ShowDevices`. -/
theorem find_recent (rows : List Sign) (log : List Op)
    (loc : Location) (now : Int) (req : DevicesReq)
    (offset limit : Int) :
    (((ShowDevices.recent loc now req).withOffset offset).withLimit limit).Find
        { rows := rows, faults := [], log := log } =
      ((page offset (some limit) (rows.filter (isRecentOf loc now req.UserId)), none),
        { rows := rows, faults := [], log := log ++ [.Find] }) := by
  have hf : rows.filter (selects [{ col := "user_id", op := .eq, arg := .str req.UserId },
      { col := "created_at", op := .gt, arg := .time (AddDate loc now (-30)) }]) =
      rows.filter (isRecentOf loc now req.UserId) := by
    congr 1
    funext r
    exact selects_recent loc now req.UserId r
  simp only [Statement.Find, runSelect, DB.issue, conds_recent_page, hf]
  simp [Statement.withLimit, Statement.withOffset, ShowDevices.recent, Statement.Where, Model,
    Table, project_nil]

/-- A healthy run of the count statement of `ShowDevices`. -/
theorem count_recent (rows : List Sign) (log : List Op)
    (loc : Location) (now : Int) (req : DevicesReq) :
    (ShowDevices.recent loc now req).Count { rows := rows, faults := [], log := log } =
      ((((rows.filter (isRecentOf loc now req.UserId)).length : Int), none),
        { rows := rows, faults := [], log := log ++ [.Count] }) := by
  have hf : rows.filter (selects [{ col := "user_id", op := .eq, arg := .str req.UserId },
      { col := "created_at", op := .gt, arg := .time (AddDate loc now (-30)) }]) =
      rows.filter (isRecentOf loc now req.UserId) := by
    congr 1
    funext r
    exact selects_recent loc now req.UserId r
  simp only [Statement.Count, DB.issue, conds_recent, hf]
  simp

/-- What `ShowDevices` returns on a storage whose connection does not fail. -/
theorem showDevices_healthy (rows : List Sign) (log : List Op)
    (loc : Location) (now : Int) (req : DevicesReq) :
    ShowDevices { rows := rows, faults := [], log := log } loc now req =
      if rows.filter (isRecentOf loc now req.UserId) = [] then
        (({ Total := 0, Devices := [] }, none),
          { rows := rows, faults := [], log := log ++ [.Count] })
      else
        (({ Total := ((rows.filter (isRecentOf loc now req.UserId)).length : Int),
            Devices := page (ShowDevices.offset req) (some req.LineNumber)
              (rows.filter (isRecentOf loc now req.UserId)) }, none),
          { rows := rows, faults := [], log := log ++ [.Count, .Find] }) := by
  simp only [ShowDevices, count_recent, find_recent]
  by_cases h : rows.filter (isRecentOf loc now req.UserId) = []
  · simp [h]
  · have hlen : ((rows.filter (isRecentOf loc now req.UserId)).length : Int) ≠ 0 := by
      intro h0
      exact h (List.length_eq_zero.mp (by exact_mod_cast h0))
    simp [h, hlen]

/-! ## Deleting and renaming on a healthy storage -/

theorem delete_where_issuer (rows : List Sign) (log : List Op) (issuer : String) :
    DeleteSignByIssuer { rows := rows, faults := [], log := log } issuer =
      (none, { rows := rows.filter (fun r => decide (r.Issuer ≠ issuer)), faults := [],
               log := log ++ [.Delete] }) := by
  simp only [DeleteSignByIssuer, Statement.Delete, conds_issuer, DB.issue]
  simp [Statement.Where, Table, selects_issuer]

theorem delete_where_loginId (rows : List Sign) (log : List Op) (login_id : Int) :
    DeleteSignByLoginId { rows := rows, faults := [], log := log } login_id =
      (none, { rows := rows.filter (fun r => decide (r.Id ≠ login_id)), faults := [],
               log := log ++ [.Delete] }) := by
  simp only [DeleteSignByLoginId, Statement.Delete, conds_loginId, DB.issue]
  simp [Statement.Where, Table, selects_loginId]

theorem rename_where_loginId (rows : List Sign) (log : List Op) (req : ModifyDeviceNameReq) :
    ModifyDeviceName { rows := rows, faults := [], log := log } req =
      (none, { rows := rows.map (fun r =>
                 if r.Id = req.LoginId then { r with DeviceName := req.DeviceName } else r),
               faults := [], log := log ++ [.Update] }) := by
  simp only [ModifyDeviceName, Statement.UpdateColumn, conds_loginId, DB.issue]
  simp [Statement.Where, Table, selects_loginId, Sign.setColumn, DeviceName, Sign.zero]

/-! ## The cutoff -/

/-- In a zone of fixed offset `AddDate(0, 0, days)` is `days * 24h` later. -/
theorem AddDate_fixed (c t days : Int) :
    AddDate (Location.fixed c) t days = t + days * (24 * 3600 * 1000000000) := by
  simp only [AddDate, Location.fixed]
  omega

/-- After the clocks were set back, when the same time of day thirty days
earlier lies before the change, `AddDate(0, 0, -30)` is thirty days of 24 hours
and one hour more before `t`. -/
theorem AddDate_across_fallBack (change t : Int) (hafter : change ≤ t / 1000000000)
    (hbefore : t / 1000000000 - 30 * 86400 - 3600 < change) :
    AddDate (Location.fallBack change) t (-30) =
      t - 30 * (24 * 3600 * 1000000000) - 3600 * 1000000000 := by
  have h1 : ¬t / 1000000000 < change := by omega
  have h2 : t / 1000000000 + -(5 * 3600) + -30 * 86400 + 4 * 3600 < change := by omega
  simp only [AddDate, Location.fallBack, h1, h2, if_true, if_false]
  omega

/-- Ten days after the clocks were set back, a row created thirty days and
thirty minutes before now is counted and returned. -/
theorem ShowDevices_across_fallBack :
    (ShowDevices
      (DB.healthy [{ sampleRow with CreatedAt := (40 * 86400 - 30 * 86400 - 1800) * 1000000000 }])
      (Location.fallBack (30 * 86400)) (40 * 86400 * 1000000000)
      { UserId := "u1", PageNumber := 1, LineNumber := 10 }).1 =
      ({ Total := 1,
         Devices := [{ sampleRow with
           CreatedAt := (40 * 86400 - 30 * 86400 - 1800) * 1000000000 }] }, none) := by
  decide

theorem page_nil (offset : Int) (limit : Option Int) : page offset limit [] = [] := by
  unfold page
  cases limit with
  | none => simp
  | some n => split <;> simp

/-! ## Paging -/

theorem wrapInt_of_fits (x : Int) (hlo : -(2 ^ 63) ≤ x) (hhi : x < 2 ^ 63) : wrapInt x = x := by
  unfold wrapInt
  omega

/-- Without overflow the local `offset` is the product itself. -/
theorem offset_of_fits (req : DevicesReq) (hp : 1 ≤ req.PageNumber) (hl : 1 ≤ req.LineNumber)
    (hfit : (req.PageNumber - 1) * req.LineNumber < 2 ^ 63) :
    ShowDevices.offset req = (req.PageNumber - 1) * req.LineNumber := by
  have h0 : 0 ≤ req.PageNumber - 1 := by omega
  have hprod : 0 ≤ (req.PageNumber - 1) * req.LineNumber := mul_nonneg h0 (by omega)
  have hle : req.PageNumber - 1 ≤ (req.PageNumber - 1) * req.LineNumber :=
    le_mul_of_one_le_right h0 hl
  unfold ShowDevices.offset
  rw [wrapInt_of_fits (req.PageNumber - 1) (by omega) (by omega)]
  exact wrapInt_of_fits _ (by omega) hfit

theorem page_of_nonneg (offset limit : Int) (rows : List Sign) (ho : 0 ≤ offset)
    (hl : 0 ≤ limit) :
    page offset (some limit) rows = (rows.drop offset.toNat).take limit.toNat := by
  unfold page
  by_cases h : 0 < offset
  · simp [h, hl]
  · have h0 : offset = 0 := by omega
    simp [h0, hl]

theorem page_subset (offset : Int) (limit : Option Int) (rows : List Sign) (d : Sign)
    (h : d ∈ page offset limit rows) : d ∈ rows := by
  unfold page at h
  have hrest : ∀ x, x ∈ (if 0 < offset then rows.drop offset.toNat else rows) → x ∈ rows := by
    intro x hx
    split at hx
    · exact List.mem_of_mem_drop hx
    · exact hx
  cases limit with
  | none => exact hrest d h
  | some n =>
    simp only at h
    split at h
    · exact hrest d (List.mem_of_mem_take h)
    · exact hrest d h

/-- On a healthy storage and without overflow of the offset, `ShowDevices`
reports the number of recent rows of the user and returns their sub-list at the
offset, of at most `LineNumber` rows. -/
theorem showDevices_of_fits (rows : List Sign) (log : List Op)
    (loc : Location) (now : Int) (req : DevicesReq)
    (hp : 1 ≤ req.PageNumber) (hl : 1 ≤ req.LineNumber)
    (hfit : (req.PageNumber - 1) * req.LineNumber < 2 ^ 63) :
    (ShowDevices { rows := rows, faults := [], log := log } loc now req).1 =
      ({ Total := ((rows.filter (isRecentOf loc now req.UserId)).length : Int),
         Devices := ((rows.filter (isRecentOf loc now req.UserId)).drop
           ((req.PageNumber - 1) * req.LineNumber).toNat).take req.LineNumber.toNat }, none) := by
  have hoff := offset_of_fits req hp hl hfit
  have hprod : 0 ≤ (req.PageNumber - 1) * req.LineNumber :=
    mul_nonneg (by omega) (by omega)
  rw [showDevices_healthy]
  by_cases h : rows.filter (isRecentOf loc now req.UserId) = []
  · simp [h]
  · simp only [h, if_false]
    rw [hoff, page_of_nonneg _ _ _ hprod (by omega)]

/-! ## The claims -/

/-- C1 (the code departs from it): the fragment `CheckLoginId` builds is
`user_id=?,ip=?,user_agent=?`, joined by commas and not by AND; the engine reads
no condition out of it, so on every table and for every triple of arguments,
also one that a row carries in its three columns, the lookup selects no row and
ends in the syntax error. -/
theorem CheckLoginId_fragment_is_comma_joined (rows : List Sign) (log : List Op)
    (user_id ip user_agent : String) :
    Sprintf "%s=?,%s=?,%s=?" [UserId, IP, UserAgent] = "user_id=?,ip=?,user_agent=?" ∧
    parseWhere "user_id=?,ip=?,user_agent=?" = .error .Syntax ∧
    parseWhere "user_id=? AND ip=? AND user_agent=?" =
      .ok [("user_id", .eq), ("ip", .eq), ("user_agent", .eq)] ∧
    CheckLoginId { rows := rows, faults := [], log := log } user_id ip user_agent =
      ((0, some .Syntax), { rows := rows, faults := [], log := log ++ [.Take] }) := by
  refine ⟨by decide, rfl, rfl, ?_⟩
  simp only [CheckLoginId, Statement.Take, runSelect, DB.issue, conds_checkLoginId]
  simp

/-- C5 (the code departs from it): for the empty issuer the struct condition of
`CompareSign` has no non-zero field and adds no `WHERE` at all, so on every
table that holds a row the check succeeds, whether or not a row has the empty
issuer. -/
theorem CompareSign_empty_issuer_succeeds (row : Sign) (rows : List Sign) (log : List Op) :
    CompareSign { rows := row :: rows, faults := [], log := log } "" =
      (none, { rows := row :: rows, faults := [], log := log ++ [.Take] }) := by
  have hs : Model.WhereStruct { Sign.zero with Issuer := "" } = Model := rfl
  have hc : (Model.withLimit 1).conds = .ok [] := rfl
  simp only [CompareSign, hs, Statement.Take, runSelect, DB.issue, hc]
  simp [selects, page, Statement.withLimit, Model, Table]

/-- For an issuer that is not empty, `CompareSign` on a healthy storage fails
with the not-found error exactly when no row has the issuer, and succeeds
otherwise. -/
theorem CompareSign_nonempty_issuer (rows : List Sign) (log : List Op) (issuer : String)
    (h : issuer ≠ "") :
    CompareSign { rows := rows, faults := [], log := log } issuer =
      (if rows.all (fun r => decide (r.Issuer ≠ issuer)) then some .ErrRecordNotFound else none,
        { rows := rows, faults := [], log := log ++ [.Take] }) := by
  have hs : Model.WhereStruct { Sign.zero with Issuer := issuer } =
      { Model with Wheres := [Expr.eqs [("issuer", Value.str issuer)]] } := by
    simp [Statement.WhereStruct, structConds, Sign.zero, h, Model, Table]
  have hc : (({ Model with Wheres := [Expr.eqs [("issuer", Value.str issuer)]] } :
      Statement).withLimit 1).conds = .ok [{ col := "issuer", op := .eq, arg := .str issuer }] :=
    rfl
  have hf : rows.filter (selects [{ col := "issuer", op := .eq, arg := .str issuer }]) =
      rows.filter (fun r => decide (r.Issuer = issuer)) := by
    congr 1
    funext r
    exact selects_issuer issuer r
  simp only [CompareSign, hs, Statement.Take, runSelect, DB.issue, hc, hf]
  cases hfl : rows.filter (fun r => decide (r.Issuer = issuer)) with
  | nil =>
    have hall : ∀ r ∈ rows, ¬r.Issuer = issuer := by
      intro r hr
      have hnot := (List.filter_eq_nil_iff.mp hfl) r hr
      simpa using hnot
    simp [page, Statement.withLimit, Model, Table]
    exact hall
  | cons x xs =>
    have hx : x ∈ rows.filter (fun r => decide (r.Issuer = issuer)) := by
      rw [hfl]
      exact List.mem_cons_self x xs
    have hall : ¬∀ r ∈ rows, ¬r.Issuer = issuer := by
      intro hno
      exact hno x (List.mem_filter.mp hx).1 (by simpa using (List.mem_filter.mp hx).2)
    simp [page, Statement.withLimit, Model, Table, hall, Sign.project]

/-- C6 (the code departs from it): after `InsertSign` of a record on an empty
table, `CheckLoginId` of the record's own triple returns 0 with the syntax error
of the comma-joined fragment and not the record's id 42; and for a triple that
no row has, on the empty table, it returns 0 with the same syntax error and not
the not-found error. -/
theorem CheckLoginId_misses_inserted_record :
    InsertSign (DB.healthy []) sampleRow =
      (none, { rows := [sampleRow], faults := [], log := [.Create] }) ∧
    sampleRow.Id = 42 ∧
    CheckLoginId { rows := [sampleRow], faults := [], log := [.Create] }
        sampleRow.UserId sampleRow.Ip sampleRow.UserAgent =
      ((0, some .Syntax), { rows := [sampleRow], faults := [], log := [.Create, .Take] }) ∧
    CheckLoginId (DB.healthy []) "u1" "10.0.0.1" "curl" =
      ((0, some .Syntax), { rows := [], faults := [], log := [.Take] }) := by
  decide

/-- C7: on a healthy storage `DeleteSignByIssuer` succeeds and leaves exactly the
rows whose issuer differs from the key, each as it was and in the same order
(so it succeeds too when no row matches); a second application succeeds and
leaves the same table. The same holds of `DeleteSignByLoginId` and the `id`
column. -/
theorem delete_is_idempotent (rows : List Sign) (log : List Op) (issuer : String)
    (login_id : Int) :
    (DeleteSignByIssuer { rows := rows, faults := [], log := log } issuer =
        (none, { rows := rows.filter (fun r => decide (r.Issuer ≠ issuer)), faults := [],
                 log := log ++ [.Delete] }) ∧
      DeleteSignByIssuer
          (DeleteSignByIssuer { rows := rows, faults := [], log := log } issuer).2 issuer =
        (none, { rows := rows.filter (fun r => decide (r.Issuer ≠ issuer)), faults := [],
                 log := log ++ [.Delete] ++ [.Delete] })) ∧
    (DeleteSignByLoginId { rows := rows, faults := [], log := log } login_id =
        (none, { rows := rows.filter (fun r => decide (r.Id ≠ login_id)), faults := [],
                 log := log ++ [.Delete] }) ∧
      DeleteSignByLoginId
          (DeleteSignByLoginId { rows := rows, faults := [], log := log } login_id).2 login_id =
        (none, { rows := rows.filter (fun r => decide (r.Id ≠ login_id)), faults := [],
                 log := log ++ [.Delete] ++ [.Delete] })) := by
  refine ⟨⟨delete_where_issuer rows log issuer, ?_⟩, ⟨delete_where_loginId rows log login_id, ?_⟩⟩
  · rw [delete_where_issuer, delete_where_issuer, List.filter_filter]
    simp
  · rw [delete_where_loginId, delete_where_loginId, List.filter_filter]
    simp

/-- C8: on a healthy storage `ModifyDeviceName` succeeds; every row whose id is
the requested one gets the requested device name and keeps its other columns,
every other row is as it was, and no row is added, removed or moved; when no
row has the id the table is unchanged. -/
theorem ModifyDeviceName_changes_only_the_name (rows : List Sign) (log : List Op)
    (req : ModifyDeviceNameReq) :
    ModifyDeviceName { rows := rows, faults := [], log := log } req =
      (none, { rows := rows.map (fun r =>
                 if r.Id = req.LoginId then { r with DeviceName := req.DeviceName } else r),
               faults := [], log := log ++ [.Update] }) ∧
    ((∀ r ∈ rows, r.Id ≠ req.LoginId) →
      ModifyDeviceName { rows := rows, faults := [], log := log } req =
        (none, { rows := rows, faults := [], log := log ++ [.Update] })) := by
  refine ⟨rename_where_loginId rows log req, fun hno => ?_⟩
  rw [rename_where_loginId]
  have hmap : rows.map (fun r =>
      if r.Id = req.LoginId then { r with DeviceName := req.DeviceName } else r) = rows := by
    conv_rhs => rw [← List.map_id rows]
    apply List.map_congr_left
    intro r hr
    simp [hno r hr]
  rw [hmap]

/-- Renaming login id 7 on a table whose only row has id 42 leaves the table as it
was. -/
theorem ModifyDeviceName_changes_only_the_name_witness :
    ModifyDeviceName (DB.healthy [sampleRow]) { LoginId := 7, DeviceName := "phone" } =
      (none, { rows := [sampleRow], faults := [], log := [.Update] }) :=
  (ModifyDeviceName_changes_only_the_name [sampleRow] [] { LoginId := 7, DeviceName := "phone" }).2
    (by decide)

/-- A failure of the connection under the one statement they issue is returned
by `InsertSign`, `CompareSign`, `CheckLoginId`, both deletions and
`ModifyDeviceName`. -/
theorem connection_failure_surfaces (rows : List Sign) (faults : List Bool) (log : List Op)
    (data : Sign) (issuer user_id ip user_agent : String) (login_id : Int)
    (req : ModifyDeviceNameReq) :
    (InsertSign { rows := rows, faults := true :: faults, log := log } data).1 =
      some .Connection ∧
    (CompareSign { rows := rows, faults := true :: faults, log := log } issuer).1 =
      some .Connection ∧
    (CheckLoginId { rows := rows, faults := true :: faults, log := log }
      user_id ip user_agent).1 = (0, some .Connection) ∧
    (DeleteSignByIssuer { rows := rows, faults := true :: faults, log := log } issuer).1 =
      some .Connection ∧
    (DeleteSignByLoginId { rows := rows, faults := true :: faults, log := log } login_id).1 =
      some .Connection ∧
    (ModifyDeviceName { rows := rows, faults := true :: faults, log := log } req).1 =
      some .Connection := by
  refine ⟨?_, ?_, ?_, ?_, ?_, ?_⟩
  · simp [InsertSign, Statement.Create, DB.issue]
  · simp [CompareSign, Statement.Take, runSelect, DB.issue]
  · simp [CheckLoginId, Statement.Take, runSelect, DB.issue]
  · simp [DeleteSignByIssuer, Statement.Delete, DB.issue, Statement.Where, Table]
  · simp [DeleteSignByLoginId, Statement.Delete, DB.issue, Statement.Where, Table]
  · simp [ModifyDeviceName, Statement.UpdateColumn, DB.issue, Statement.Where, Table]

/-- A failure of the connection under the page statement of `ShowDevices` is
returned. -/
theorem page_failure_surfaces (rows : List Sign) (faults : List Bool) (log : List Op)
    (loc : Location) (now : Int) (req : DevicesReq)
    (h : rows.filter (isRecentOf loc now req.UserId) ≠ []) :
    (ShowDevices { rows := rows, faults := false :: true :: faults, log := log } loc now req).1.2 =
      some .Connection := by
  have hf : rows.filter (selects [{ col := "user_id", op := .eq, arg := .str req.UserId },
      { col := "created_at", op := .gt, arg := .time (AddDate loc now (-30)) }]) =
      rows.filter (isRecentOf loc now req.UserId) := by
    congr 1
    funext r
    exact selects_recent loc now req.UserId r
  simp only [ShowDevices, Statement.Count, Statement.Find, runSelect, DB.issue, conds_recent, hf]
  simp [h]

/-- C9 (the code departs from it): when the connection fails under the count
statement of `ShowDevices`, the method returns total 0, no device and a nil
error, after that one statement: the failure does not reach the caller. -/
theorem ShowDevices_swallows_count_failure (rows : List Sign) (faults : List Bool)
    (log : List Op) (loc : Location) (now : Int) (req : DevicesReq) :
    (ShowDevices.recent loc now req).Count { rows := rows, faults := true :: faults, log := log } =
      ((0, some .Connection), { rows := rows, faults := faults, log := log ++ [.Count] }) ∧
    ShowDevices { rows := rows, faults := true :: faults, log := log } loc now req =
      (({ Total := 0, Devices := [] }, none),
        { rows := rows, faults := faults, log := log ++ [.Count] }) := by
  constructor
  · simp [Statement.Count, DB.issue]
  · simp [ShowDevices, Statement.Count, DB.issue]

/-- C10: when no row of the table is a row of the user created within the last
thirty days, `ShowDevices` returns total 0, an empty device list and a nil
error, and the count is the only statement it issues: the log grows by the
count alone and the script of the connection is advanced by one entry, whatever
it holds for a statement after. -/
theorem ShowDevices_zero_total_short_circuit (rows : List Sign) (faults : List Bool)
    (log : List Op) (loc : Location) (now : Int) (req : DevicesReq)
    (h : (rows.filter (isRecentOf loc now req.UserId)).length = 0) :
    ShowDevices { rows := rows, faults := faults, log := log } loc now req =
      (({ Total := 0, Devices := [] }, none),
        { rows := rows, faults := faults.tail, log := log ++ [.Count] }) := by
  have hf : rows.filter (selects [{ col := "user_id", op := .eq, arg := .str req.UserId },
      { col := "created_at", op := .gt, arg := .time (AddDate loc now (-30)) }]) =
      rows.filter (isRecentOf loc now req.UserId) := by
    congr 1
    funext r
    exact selects_recent loc now req.UserId r
  have hnil : rows.filter (isRecentOf loc now req.UserId) = [] := List.length_eq_zero.mp h
  simp only [ShowDevices, Statement.Count, DB.issue, conds_recent, hf, hnil]
  cases faults with
  | nil => simp
  | cons f fs => cases f <;> simp

/-- A user without rows: one statement is issued, and the failure scripted for a
second statement is not met. -/
theorem ShowDevices_zero_total_short_circuit_witness :
    ShowDevices { rows := [sampleRow], faults := [false, true], log := [] } Location.UTC 2000
        { UserId := "u2", PageNumber := 1, LineNumber := 10 } =
      (({ Total := 0, Devices := [] }, none),
        { rows := [sampleRow], faults := [true], log := [.Count] }) :=
  ShowDevices_zero_total_short_circuit [sampleRow] [false, true] [] Location.UTC 2000
    { UserId := "u2", PageNumber := 1, LineNumber := 10 } (by decide)

/-- C2 (as stated it fails): `offset` is computed in a Go `int`; for page
number 2^62 + 1 and line number 4 the product 2^64 wraps to 0, and the method
returns the first rows of the user instead of the rows from index 2^64 on. -/
theorem ShowDevices_offset_wraps :
    (1 : Int) ≤ 2 ^ 62 + 1 ∧ (1 : Int) ≤ 4 ∧
    ShowDevices.offset { UserId := "u1", PageNumber := 2 ^ 62 + 1, LineNumber := 4 } = 0 ∧
    ShowDevices.offset { UserId := "u1", PageNumber := 2 ^ 62 + 1, LineNumber := 4 } ≠
      (2 ^ 62 + 1 - 1) * 4 ∧
    (ShowDevices (DB.healthy [sampleRow]) Location.UTC 2000
      { UserId := "u1", PageNumber := 2 ^ 62 + 1, LineNumber := 4 }).1.1.Devices = [sampleRow] ∧
    (ShowDevices (DB.healthy [sampleRow]) Location.UTC 2000
      { UserId := "u1", PageNumber := 2 ^ 62 + 1, LineNumber := 4 }).1.1.Devices ≠
      (([sampleRow].filter (isRecentOf Location.UTC 2000 "u1")).drop
        (((2 : Int) ^ 62 + 1 - 1) * 4).toNat).take (4 : Int).toNat := by
  decide

/-- C2 (amended): for page number and line number at least 1 whose product
`(page_number - 1) * line_number` is below 2^63, the local `offset` is that
product, the page statement carries it as its offset and `line_number` as its
limit, and on a healthy storage the devices returned are the rows of the user
created within the last thirty days, in storage order, from index
`(page_number - 1) * line_number` on and at most `line_number` of them. -/
theorem ShowDevices_page_is_offset_limit (rows : List Sign) (log : List Op)
    (loc : Location) (now : Int)
    (req : DevicesReq) (hp : 1 ≤ req.PageNumber) (hl : 1 ≤ req.LineNumber)
    (hfit : (req.PageNumber - 1) * req.LineNumber < 2 ^ 63) :
    ShowDevices.offset req = (req.PageNumber - 1) * req.LineNumber ∧
    (((ShowDevices.recent loc now req).withOffset (ShowDevices.offset req)).withLimit
      req.LineNumber).Offset = (req.PageNumber - 1) * req.LineNumber ∧
    (((ShowDevices.recent loc now req).withOffset (ShowDevices.offset req)).withLimit
      req.LineNumber).Limit = some req.LineNumber ∧
    (ShowDevices { rows := rows, faults := [], log := log } loc now req).1 =
      ({ Total := ((rows.filter (isRecentOf loc now req.UserId)).length : Int),
         Devices := ((rows.filter (isRecentOf loc now req.UserId)).drop
           ((req.PageNumber - 1) * req.LineNumber).toNat).take req.LineNumber.toNat }, none) := by
  have hoff := offset_of_fits req hp hl hfit
  refine ⟨hoff, ?_, rfl, showDevices_of_fits rows log loc now req hp hl hfit⟩
  simpa [Statement.withLimit, Statement.withOffset] using hoff

/-- Three rows, page 2 of line number 2: the total is 3 and the page is the third
row. -/
theorem ShowDevices_page_is_offset_limit_witness :
    (ShowDevices (DB.healthy sampleRows) Location.UTC 2000
      { UserId := "u1", PageNumber := 2, LineNumber := 2 }).1 =
      ({ Total := 3, Devices := [{ sampleRow with Id := 44, Issuer := "tok44", Ip := "10.0.0.3" }] },
        none) :=
  (ShowDevices_page_is_offset_limit sampleRows [] Location.UTC 2000
    { UserId := "u1", PageNumber := 2, LineNumber := 2 } (by decide) (by decide) (by decide)).2.2.2

/-- C3 (as stated it fails): with three rows of the user, page number 2^32 + 1
and line number 2^32, the product 2^64 wraps to offset 0 and the page holds all
three rows, where `min(line_number, max(0, N - (page_number - 1) * line_number))`
is 0. -/
theorem ShowDevices_page_length_wraps :
    (1 : Int) ≤ 2 ^ 32 + 1 ∧ (1 : Int) ≤ 2 ^ 32 ∧
    (sampleRows.filter (isRecentOf Location.UTC 2000 "u1")).length = 3 ∧
    (ShowDevices (DB.healthy sampleRows) Location.UTC 2000
      { UserId := "u1", PageNumber := 2 ^ 32 + 1, LineNumber := 2 ^ 32 }).1.1.Total = 3 ∧
    (ShowDevices (DB.healthy sampleRows) Location.UTC 2000
      { UserId := "u1", PageNumber := 2 ^ 32 + 1, LineNumber := 2 ^ 32 }).1.1.Devices.length = 3 ∧
    min ((2 : Int) ^ 32) (max 0 (3 - (2 ^ 32 + 1 - 1) * 2 ^ 32)) = 0 := by
  decide

/-- C3 (amended): for page number and line number at least 1 whose product
`(page_number - 1) * line_number` is below 2^63, on a healthy storage holding N
rows of the user created within the last thirty days, `ShowDevices` returns
total N, no error, and a page of exactly
`min(line_number, max(0, N - (page_number - 1) * line_number))` records; with
N = 35 and line number 10 the total is 35, pages 1, 2 and 3 hold 10 records and
page 4 holds 5. -/
theorem ShowDevices_total_and_page_length (rows : List Sign) (log : List Op)
    (loc : Location) (now : Int)
    (req : DevicesReq) (hp : 1 ≤ req.PageNumber) (hl : 1 ≤ req.LineNumber)
    (hfit : (req.PageNumber - 1) * req.LineNumber < 2 ^ 63) :
    (ShowDevices { rows := rows, faults := [], log := log } loc now req).1.1.Total =
      ((rows.filter (isRecentOf loc now req.UserId)).length : Int) ∧
    (ShowDevices { rows := rows, faults := [], log := log } loc now req).1.2 = none ∧
    (((ShowDevices { rows := rows, faults := [], log := log } loc now
        req).1.1.Devices.length : Nat) : Int) =
      min req.LineNumber (max 0 (((rows.filter (isRecentOf loc now req.UserId)).length : Int) -
        (req.PageNumber - 1) * req.LineNumber)) ∧
    ((rows.filter (isRecentOf loc now req.UserId)).length = 35 → req.LineNumber = 10 →
      (ShowDevices { rows := rows, faults := [], log := log } loc now req).1.1.Total = 35 ∧
      (req.PageNumber = 1 ∨ req.PageNumber = 2 ∨ req.PageNumber = 3 →
        (ShowDevices { rows := rows, faults := [], log := log } loc now req).1.1.Devices.length
          = 10) ∧
      (req.PageNumber = 4 →
        (ShowDevices { rows := rows, faults := [], log := log } loc now req).1.1.Devices.length
          = 5)) := by
  have hprod : 0 ≤ (req.PageNumber - 1) * req.LineNumber :=
    mul_nonneg (by omega) (by omega)
  have hlen : (((ShowDevices { rows := rows, faults := [], log := log } loc now
      req).1.1.Devices.length : Nat) : Int) =
      min req.LineNumber (max 0 (((rows.filter (isRecentOf loc now req.UserId)).length : Int) -
        (req.PageNumber - 1) * req.LineNumber)) := by
    rw [showDevices_of_fits rows log loc now req hp hl hfit]
    simp only [List.length_take, List.length_drop]
    generalize (rows.filter (isRecentOf loc now req.UserId)).length = n at *
    generalize (req.PageNumber - 1) * req.LineNumber = m at *
    omega
  refine ⟨?_, ?_, hlen, ?_⟩
  · rw [showDevices_of_fits rows log loc now req hp hl hfit]
  · rw [showDevices_of_fits rows log loc now req hp hl hfit]
  · intro hN hline
    rw [hN, hline] at hlen
    refine ⟨?_, ?_, ?_⟩
    · rw [showDevices_of_fits rows log loc now req hp hl hfit, hN]
      rfl
    · intro hpage
      rcases hpage with h1 | h1 | h1 <;> rw [h1] at hlen <;> omega
    · intro h4
      rw [h4] at hlen
      omega

/-- Thirty-five rows, page 4 of line number 10: the total is 35 and the page holds
5 records. -/
theorem ShowDevices_total_and_page_length_witness :
    (ShowDevices (DB.healthy rows35) Location.UTC 2000
      { UserId := "u1", PageNumber := 4, LineNumber := 10 }).1.1.Total = 35 ∧
    (ShowDevices (DB.healthy rows35) Location.UTC 2000
      { UserId := "u1", PageNumber := 4, LineNumber := 10 }).1.1.Devices.length = 5 :=
  have h := (ShowDevices_total_and_page_length rows35 [] Location.UTC 2000
    { UserId := "u1", PageNumber := 4, LineNumber := 10 } (by decide) (by decide)
    (by decide)).2.2.2 (by decide) rfl
  ⟨h.1, h.2.2 rfl⟩

/-- C4: on a healthy storage, in every time zone, the total `ShowDevices` reports
is the number of rows whose `user_id` is the requested one and whose
`created_at` is strictly later than the current time minus thirty days, which
the code takes as `time.Now().AddDate(0, 0, -30)`; the devices it returns are a
page of exactly those rows, each of them a row of the table; so a row created
at that time or earlier, and a row of another user, is neither counted nor
returned. In a zone of fixed offset that time is `30 * 24h` before now. -/
theorem ShowDevices_counts_and_returns_recent_rows_of_user (rows : List Sign) (log : List Op)
    (loc : Location) (now : Int) (req : DevicesReq) :
    (ShowDevices { rows := rows, faults := [], log := log } loc now req).1.1.Total =
      ((rows.filter (fun d =>
        decide (d.UserId = req.UserId ∧ AddDate loc now (-30) < d.CreatedAt))).length : Int) ∧
    (ShowDevices { rows := rows, faults := [], log := log } loc now req).1.1.Devices =
      page (ShowDevices.offset req) (some req.LineNumber) (rows.filter (fun d =>
        decide (d.UserId = req.UserId ∧ AddDate loc now (-30) < d.CreatedAt))) ∧
    (∀ d ∈ (ShowDevices { rows := rows, faults := [], log := log } loc now req).1.1.Devices,
      d ∈ rows ∧ d.UserId = req.UserId ∧ AddDate loc now (-30) < d.CreatedAt) ∧
    (∀ d ∈ rows, d.CreatedAt ≤ AddDate loc now (-30) →
      d ∉ (ShowDevices { rows := rows, faults := [], log := log } loc now req).1.1.Devices) ∧
    (∀ d ∈ rows, d.UserId ≠ req.UserId →
      d ∉ (ShowDevices { rows := rows, faults := [], log := log } loc now req).1.1.Devices) ∧
    (∀ c : Int, AddDate (Location.fixed c) now (-30) = now - 30 * (24 * 3600 * 1000000000)) := by
  have hpred : (fun d : Sign =>
      decide (d.UserId = req.UserId ∧ AddDate loc now (-30) < d.CreatedAt)) =
      isRecentOf loc now req.UserId := by
    funext d
    simp only [isRecentOf, Bool.decide_and]
  have hmem : ∀ d ∈ (ShowDevices { rows := rows, faults := [], log := log } loc now
      req).1.1.Devices,
      d ∈ rows ∧ d.UserId = req.UserId ∧ AddDate loc now (-30) < d.CreatedAt := by
    intro d hd
    rw [showDevices_healthy] at hd
    split at hd
    · simp at hd
    · have hin := List.mem_filter.mp (page_subset (ShowDevices.offset req) (some req.LineNumber)
        (rows.filter (isRecentOf loc now req.UserId)) d hd)
      have hrec := hin.2
      simp only [isRecentOf, Bool.and_eq_true, decide_eq_true_eq] at hrec
      exact ⟨hin.1, hrec.1, hrec.2⟩
  refine ⟨?_, ?_, hmem, ?_, ?_, fun c => by rw [AddDate_fixed]; ring⟩
  · rw [hpred, showDevices_healthy]
    split
    · rename_i h
      simp [h]
    · rfl
  · rw [hpred, showDevices_healthy]
    split
    · rename_i h
      rw [h, page_nil]
    · rfl
  · intro d _ hold hd
    have := (hmem d hd).2.2
    omega
  · intro d _ hother hd
    exact hother (hmem d hd).2.1

end SignRepo
